import Mathlib

/-!
Shallow embedding of the mDNS responder core (server.go of gonzojive/mdns).

The embedding models the protocol engine: question routing
(handleQuestion), query validation and response construction
(handleQuery), the response builder (the resp closure), announcement
transmission (announceOnce) and the two-shot announcement schedule
(Announce), and the idempotent Shutdown.

External collaborators are modelled as parameters:
the Zone is a structure of two functions (Records, Announcement);
the DNS codec (Pack) is treated as total, since its failures belong to
the external library, not to this core; socket writes are modelled by a
failure oracle telling, per call, whether the underlying UDP write
errors.  Resource records are opaque to the core, so they are a type
parameter RR.
-/

namespace Mdns

-- A DNS resource record is opaque to this core: the server only
-- collects and forwards records produced by the Zone.
variable {RR : Type}

/-- dns.Question of the miekg dns library: the fields the core reads.
Qclass is the raw 16-bit class field from the wire (modelled as Nat). -/
structure Question where
  name : String
  qtype : Nat
  qclass : Nat
deriving DecidableEq, Repr

/-- dns.MsgHdr: the header fields the core reads or writes.
Go zero values are 0 and false. -/
structure MsgHdr where
  Id : Nat
  Response : Bool
  Opcode : Nat
  Authoritative : Bool
  Truncated : Bool
  RecursionDesired : Bool
  RecursionAvailable : Bool
  Zero : Bool
  AuthenticatedData : Bool
  CheckingDisabled : Bool
  Rcode : Nat
deriving DecidableEq, Repr

/-- dns.Msg restricted to the fields this core touches.  Compress is
the name-compression flag of the library API. -/
structure Msg (RR : Type) where
  hdr : MsgHdr
  Compress : Bool
  Question : List Question
  Answer : List RR
deriving DecidableEq, Repr

/-- The Zone collaborator: Records answers a question, Announcement is
the full set of records to announce (interface Zone of the package). -/
structure Zone (RR : Type) where
  Records : Question → List RR
  Announcement : List RR

/-- dns.OpcodeQuery is the constant 0. -/
def OpcodeQuery : Nat := 0

/-- The package constant forceUnicastResponses (server.go line 19). -/
def forceUnicastResponses : Bool := false

/-- handleQuestion (server.go lines 259-281), with the package constant
forceUnicastResponses generalised to the parameter force so that both
values of the setting can be stated; handleQuery instantiates it with
the constant.  The question q is passed to Zone.Records exactly as the
Go code passes it: unmodified, raw class field included. -/
def handleQuestion (force : Bool) (zone : Zone RR) (q : Question) :
    List RR × List RR :=
  let records := zone.Records q
  if records.length = 0 then ([], [])
  else if (q.qclass &&& (1 <<< 15) != 0) || force then ([], records)
  else (records, [])

/-- What the spec text of section 3 asks of question routing: the
unicast-preferred flag is stripped from the class field before record
matching, so the Zone sees the question with bit 15 cleared, while the
original bit still decides the routing.  Written from the words of the
spec, to be compared with handleQuestion, which follows the source. -/
def handleQuestionSpecStripped (force : Bool) (zone : Zone RR) (q : Question) :
    List RR × List RR :=
  let unicastWanted := q.qclass &&& (1 <<< 15) != 0
  let stripped : Question := { q with qclass := q.qclass % (1 <<< 15) }
  let records := zone.Records stripped
  if records.length = 0 then ([], [])
  else if unicastWanted || force then ([], records)
  else (records, [])

/-- The per-question loop of handleQuery (server.go lines 183-187):
multicast and unicast answers of the questions, concatenated in
question order. -/
def collectAnswers (zone : Zone RR) : List Question → List RR × List RR
  | [] => ([], [])
  | q :: qs =>
    let mu := handleQuestion forceUnicastResponses zone q
    let rest := collectAnswers zone qs
    (mu.1 ++ rest.1, mu.2 ++ rest.2)

/-- The response message built by the resp closure (server.go lines
208-239) and by announceOnce (lines 329-361): all header fields not in
the Go struct literal are Go zero values. -/
def mkResponse (id : Nat) (answer : List RR) : Msg RR :=
  { hdr := { Id := id
             Response := true
             Opcode := OpcodeQuery
             Authoritative := true
             Truncated := false
             RecursionDesired := false
             RecursionAvailable := false
             Zero := false
             AuthenticatedData := false
             CheckingDisabled := false
             Rcode := 0 }
    Compress := true
    Question := []
    Answer := answer }

/-- The resp closure of handleQuery (server.go lines 190-240): builds
the unicast or the multicast response, or none when the corresponding
answer sequence is empty. -/
def buildResponse (queryId : Nat) (multicastAnswer unicastAnswer : List RR)
    (unicast : Bool) : Option (Msg RR) :=
  let id := if unicast then queryId else 0
  let answer := if unicast then unicastAnswer else multicastAnswer
  if answer.length = 0 then none
  else some (mkResponse id answer)

/-- One call to sendResponse: the message handed over and whether the
send was tagged unicast. -/
structure SendAttempt (RR : Type) where
  msg : Msg RR
  unicast : Bool
deriving DecidableEq, Repr

/-- handleQuery (server.go lines 155-253).  sendFails is the outcome of
sendResponse for the multicast (false) and the unicast (true) send.
The result is the sequence of sendResponse calls made, in order, and
whether handleQuery returns an error (true) or nil (false).  As in the
source, a failing multicast send returns at once, before the unicast
response is even built. -/
def handleQuery (zone : Zone RR) (sendFails : Bool → Bool) (query : Msg RR) :
    List (SendAttempt RR) × Bool :=
  if query.hdr.Opcode ≠ OpcodeQuery then ([], true)
  else if query.hdr.Rcode ≠ 0 then ([], true)
  else if query.hdr.Truncated then ([], true)
  else
    let ans := collectAnswers zone query.Question
    match buildResponse query.hdr.Id ans.1 ans.2 false with
    | some mresp =>
        if sendFails false then ([⟨mresp, false⟩], true)
        else
          match buildResponse query.hdr.Id ans.1 ans.2 true with
          | some uresp => ([⟨mresp, false⟩, ⟨uresp, true⟩], sendFails true)
          | none => ([⟨mresp, false⟩], false)
    | none =>
        match buildResponse query.hdr.Id ans.1 ans.2 true with
        | some uresp => ([⟨uresp, true⟩], sendFails true)
        | none => ([], false)

/-- Which of the two multicast sockets of the server are present
(either listener may be nil, server.go lines 55-56). -/
structure Sockets where
  v4 : Bool
  v6 : Bool
deriving DecidableEq, Repr

/-- One WriteToUDP call made by announceOnce: the destination socket
family and the message written (the encoded form of msg). -/
structure AnnWrite (RR : Type) where
  v6 : Bool
  msg : Msg RR
deriving DecidableEq, Repr

/-- announceOnce (server.go lines 323-379).  writeFails gives the
outcome of the WriteToUDP call on the v4 (false) and the v6 (true)
socket.  Pack is treated as total: encoding failures belong to the
external codec.  The result is the sequence of writes performed and
whether announceOnce returns an error.  As in the source, a failing v4
write returns at once, before the v6 write. -/
def announceOnce (zone : Zone RR) (socks : Sockets) (writeFails : Bool → Bool) :
    List (AnnWrite RR) × Bool :=
  let records := zone.Announcement
  if records.length = 0 then ([], false)
  else
    let msg := mkResponse 0 records
    if socks.v4 then
      if writeFails false then ([⟨false, msg⟩], true)
      else if socks.v6 then
        ([⟨false, msg⟩, ⟨true, msg⟩], writeFails true)
      else ([⟨false, msg⟩], false)
    else if socks.v6 then ([⟨true, msg⟩], writeFails true)
    else ([], false)

/-- Announce (server.go lines 383-399).  One announcement runs at once
(the goroutine) and a timer fires a second one 2 seconds later; when
the first announcement fails, tryAnnounce stops the timer, so the
second never runs.  The result is the list of timed announcement
transmissions: the offset in seconds from the Announce call, paired
with the writes of that announceOnce execution.  writeFails gives the
write outcomes of the first (0) and the second (1) execution. -/
def Announce (zone : Zone RR) (socks : Sockets)
    (writeFails : Nat → Bool → Bool) : List (Nat × List (AnnWrite RR)) :=
  let first := announceOnce zone socks (writeFails 0)
  if first.2 then [(0, first.1)]
  else [(0, first.1), (2, (announceOnce zone socks (writeFails 1)).1)]

/-- The server state that Shutdown touches: which sockets are present
and the shutdown flag (server.go lines 52-61).  The shutdown channel is
closed exactly when the flag is set, so it needs no separate field. -/
structure ServerState where
  v4Present : Bool
  v6Present : Bool
  shutdown : Bool
deriving DecidableEq, Repr

/-- A resource released by Shutdown: the shutdown channel and the two
socket Close calls. -/
inductive CloseEvent where
  | ch : CloseEvent
  | v4 : CloseEvent
  | v6 : CloseEvent
deriving DecidableEq, Repr

/-- Shutdown (server.go lines 108-125): under the mutex, a second call
finds the flag set and returns nil at once; the first call sets the
flag, closes the channel and closes each present socket.  The result is
the new state, the close calls issued, and the returned error, which is
nil (modelled as true = success) on every path. -/
def Shutdown (s : ServerState) : ServerState × List CloseEvent × Bool :=
  if s.shutdown then (s, [], true)
  else
    ({ s with shutdown := true },
     [CloseEvent.ch]
       ++ (if s.v4Present then [CloseEvent.v4] else [])
       ++ (if s.v6Present then [CloseEvent.v6] else []),
     true)

/-- n sequential calls of Shutdown from state s: the final state, the
concatenated close events, and the outcomes of the calls in order. -/
def shutdownN : Nat → ServerState → ServerState × List CloseEvent × List Bool
  | 0, s => (s, [], [])
  | n + 1, s =>
    let r := Shutdown s
    let rest := shutdownN n r.1
    (rest.1, r.2.1 ++ rest.2.1, r.2.2 :: rest.2.2)

/-! Concrete fixtures used by witnesses and counterexamples.  Records
are Nat values, as the core treats them as opaque. -/

/-- A zone that matches every question with the record 42 and announces
the record 7. -/
def zoneAny : Zone Nat := ⟨fun _ => [42], [7]⟩

/-- A class-sensitive zone: it matches exactly the questions whose raw
class field equals 1 (class IN with the unicast bit clear). -/
def zoneCS : Zone Nat := ⟨fun q => if q.qclass = 1 then [42] else [], []⟩

/-- Question for foo.local., type A, class IN, unicast bit clear. -/
def qM : Question := ⟨"foo.local.", 1, 1⟩

/-- Question for foo.local., type A, class IN, unicast bit set. -/
def qU : Question := ⟨"foo.local.", 1, 1 + (1 <<< 15)⟩

/-- Header of a valid query: id 9, opcode 0, rcode 0, not truncated. -/
def queryHdr : MsgHdr := ⟨9, false, 0, false, false, false, false, false, false, false, 0⟩

/-- A valid query carrying the single question qM. -/
def queryM : Msg Nat := ⟨queryHdr, false, [qM], []⟩

/-- A valid query carrying the single question qU. -/
def queryU : Msg Nat := ⟨queryHdr, false, [qU], []⟩

/-- A valid query carrying qM and qU, so that both the multicast and
the unicast answer sequence are non-empty. -/
def queryBoth : Msg Nat := ⟨queryHdr, false, [qM, qU], []⟩

/-! Helper lemmas shared by the claim theorems. -/

/-- Closed form of handleQuestion: the routing bit picks the side that
receives the whole record list. -/
lemma handleQuestion_eq (force : Bool) (zone : Zone RR) (q : Question) :
    handleQuestion force zone q =
      if (q.qclass &&& (1 <<< 15) != 0) || force then ([], zone.Records q)
      else (zone.Records q, []) := by
  unfold handleQuestion
  by_cases h : (zone.Records q).length = 0
  · have hnil : zone.Records q = [] := List.length_eq_zero.mp h
    by_cases hb : ((q.qclass &&& (1 <<< 15) != 0) || force) = true <;>
      simp [h, hnil, hb]
  · by_cases hb : ((q.qclass &&& (1 <<< 15) != 0) || force) = true <;>
      simp [h, hb]

/-- A message built by the resp closure always has a non-empty answer
list. -/
lemma buildResponse_some_answer_ne_nil {qid : Nat} {m u : List RR}
    {uc : Bool} {msg : Msg RR} (h : buildResponse qid m u uc = some msg) :
    msg.Answer ≠ [] := by
  unfold buildResponse at h
  by_cases he : (if uc then u else m).length = 0
  · simp [he] at h
  · simp [he, mkResponse] at h
    subst h
    intro hnil
    simp at hnil
    simp [hnil] at he

/-- When no question of the list matches, the collected answers are
empty on both sides. -/
lemma collectAnswers_nil_of_no_match {zone : Zone RR} :
    ∀ {qs : List Question}, (∀ q ∈ qs, zone.Records q = []) →
      collectAnswers zone qs = ([], []) := by
  intro qs
  induction qs with
  | nil => intro _; rfl
  | cons q qs ih =>
    intro h
    have hq : zone.Records q = [] := h q (by simp)
    have ht := ih (fun r hr => h r (by simp [hr]))
    simp [collectAnswers, handleQuestion_eq, hq, ht]

/-- C1: the routing decision is binary and per-question: when bit 15 of
the class field is set or the force-unicast setting is on, all records
matched by the Zone go only to the unicast answer sequence; when the
bit is clear and the setting off, they go only to the multicast one; a
single question is never split between both sequences. -/
theorem handleQuestion_per_question_binary_routing (force : Bool)
    (zone : Zone RR) (q : Question) :
    (((q.qclass &&& (1 <<< 15) != 0) || force) = true →
      handleQuestion force zone q = ([], zone.Records q))
    ∧ (((q.qclass &&& (1 <<< 15) != 0) || force) = false →
      handleQuestion force zone q = (zone.Records q, []))
    ∧ ((handleQuestion force zone q).1 = []
        ∨ (handleQuestion force zone q).2 = []) := by
  refine ⟨fun hb => ?_, fun hb => ?_, ?_⟩
  · rw [handleQuestion_eq, if_pos hb]
  · rw [handleQuestion_eq, if_neg (by rw [hb]; exact Bool.false_ne_true)]
  · rw [handleQuestion_eq]
    cases hc : ((q.qclass &&& (1 <<< 15) != 0) || force) <;> simp

/-- Witness for C1: the unicast-bit question routes to the unicast
side, the plain question to the multicast side. -/
theorem handleQuestion_per_question_binary_routing_witness :
    handleQuestion false zoneAny qU = ([], zoneAny.Records qU)
    ∧ handleQuestion false zoneAny qM = (zoneAny.Records qM, []) :=
  ⟨(handleQuestion_per_question_binary_routing false zoneAny qU).1 (by decide),
   (handleQuestion_per_question_binary_routing false zoneAny qM).2.1 (by decide)⟩

/-- C5, counterexample: the question is handed to Zone.Records with the
raw class field, bit 15 included.  Against a class-sensitive zone the
code finds nothing for the unicast-bit question, while the stripped
variant described by the spec would find the record. -/
theorem handleQuestion_raw_class_counterexample :
    handleQuestion false zoneCS qU = ([], [])
    ∧ handleQuestionSpecStripped false zoneCS qU = ([], [42])
    ∧ handleQuestion false zoneCS qU ≠ handleQuestionSpecStripped false zoneCS qU := by
  decide

/-- C5, amended: the unicast-preferred bit is interpreted only for the
routing decision, after matching; the Zone receives the question
exactly as it arrived, raw class field included, so the result depends
on the Zone only through its answer to that literal question. -/
theorem handleQuestion_zone_sees_raw_question (force : Bool)
    (z1 z2 : Zone RR) (q : Question) (h : z1.Records q = z2.Records q) :
    handleQuestion force z1 q = handleQuestion force z2 q := by
  simp [handleQuestion_eq, h]

/-- Witness for the amended C5: two zones that agree on the literal
question qM are indistinguishable to handleQuestion there. -/
theorem handleQuestion_zone_sees_raw_question_witness :
    handleQuestion false zoneCS qM = handleQuestion false zoneAny qM :=
  handleQuestion_zone_sees_raw_question false zoneCS zoneAny qM (by decide)

/-- C3: a query with non-zero opcode, non-zero rcode or the truncated
flag set is rejected with an error and no send is attempted; the
result does not depend on the Zone, which is never consulted. -/
theorem handleQuery_rejects_invalid_query (zone : Zone RR)
    (sf : Bool → Bool) (query : Msg RR)
    (h : query.hdr.Opcode ≠ 0 ∨ query.hdr.Rcode ≠ 0 ∨ query.hdr.Truncated = true) :
    handleQuery zone sf query = ([], true)
    ∧ ∀ (z2 : Zone RR) (sf2 : Bool → Bool), handleQuery z2 sf2 query = ([], true) := by
  have key : ∀ (z : Zone RR) (s : Bool → Bool), handleQuery z s query = ([], true) := by
    intro z s
    unfold handleQuery
    rcases h with h | h | h
    · simp [h, OpcodeQuery]
    · by_cases h1 : query.hdr.Opcode ≠ OpcodeQuery <;> simp [h1, h]
    · by_cases h1 : query.hdr.Opcode ≠ OpcodeQuery
      · simp [h1]
      · by_cases h2 : query.hdr.Rcode ≠ 0 <;> simp [h1, h2, h]
  exact ⟨key zone sf, key⟩

/-- A query whose header carries opcode 5, otherwise well formed. -/
def queryBadOpcode : Msg Nat :=
  ⟨⟨9, false, 5, false, false, false, false, false, false, false, 0⟩, false, [qM], []⟩

/-- Witness for C3: the opcode-5 query is rejected with no sends. -/
theorem handleQuery_rejects_invalid_query_witness :
    handleQuery zoneAny (fun _ => false) queryBadOpcode = ([], true) :=
  (handleQuery_rejects_invalid_query zoneAny (fun _ => false) queryBadOpcode
    (Or.inl (by decide))).1

/-- C2: a valid query (opcode 0, rcode 0, not truncated) with exactly
one question that the Zone matches produces exactly one sendResponse
call; its message has the response bit, opcode 0, the authoritative
bit, all of truncated, recursion-desired, recursion-available and the
reserved bits clear, rcode 0, name compression enabled, and id 0 when
the send is multicast or the query id when the send is unicast. -/
theorem handleQuery_single_question_response (zone : Zone RR)
    (sf : Bool → Bool) (query : Msg RR) (q : Question)
    (hop : query.hdr.Opcode = 0) (hrc : query.hdr.Rcode = 0)
    (htr : query.hdr.Truncated = false)
    (hq : query.Question = [q]) (hm : zone.Records q ≠ []) :
    ∃ a : SendAttempt RR,
      (handleQuery zone sf query).1 = [a]
      ∧ a.msg.hdr.Response = true
      ∧ a.msg.hdr.Opcode = 0
      ∧ a.msg.hdr.Authoritative = true
      ∧ a.msg.hdr.Truncated = false
      ∧ a.msg.hdr.RecursionDesired = false
      ∧ a.msg.hdr.RecursionAvailable = false
      ∧ a.msg.hdr.Zero = false
      ∧ a.msg.hdr.AuthenticatedData = false
      ∧ a.msg.hdr.CheckingDisabled = false
      ∧ a.msg.hdr.Rcode = 0
      ∧ a.msg.Compress = true
      ∧ a.msg.hdr.Id = (if a.unicast then query.hdr.Id else 0) := by
  have hmlen : ¬ (zone.Records q).length = 0 :=
    fun h => hm (List.length_eq_zero.mp h)
  have hca : collectAnswers zone query.Question =
      handleQuestion forceUnicastResponses zone q := by
    rw [hq]
    simp [collectAnswers]
  unfold handleQuery
  rw [if_neg (by simp [hop, OpcodeQuery]), if_neg (by simp [hrc]),
    if_neg (by simp [htr])]
  simp only [hca, handleQuestion_eq, forceUnicastResponses, Bool.or_false]
  cases hbit : (q.qclass &&& (1 <<< 15) != 0)
  · refine ⟨⟨mkResponse 0 (zone.Records q), false⟩, ?_⟩
    cases hsf : sf false <;>
      simp [buildResponse, hmlen, mkResponse, hsf, OpcodeQuery]
  · refine ⟨⟨mkResponse query.hdr.Id (zone.Records q), true⟩, ?_⟩
    simp [buildResponse, hmlen, mkResponse, OpcodeQuery]

/-- Witness for C2: the query with the single plain question qM against
the match-all zone yields exactly one (multicast) send with the
RFC-6762 header fields. -/
theorem handleQuery_single_question_response_witness :
    ∃ a : SendAttempt Nat,
      (handleQuery zoneAny (fun _ => false) queryM).1 = [a]
      ∧ a.msg.hdr.Response = true
      ∧ a.msg.hdr.Opcode = 0
      ∧ a.msg.hdr.Authoritative = true
      ∧ a.msg.hdr.Truncated = false
      ∧ a.msg.hdr.RecursionDesired = false
      ∧ a.msg.hdr.RecursionAvailable = false
      ∧ a.msg.hdr.Zero = false
      ∧ a.msg.hdr.AuthenticatedData = false
      ∧ a.msg.hdr.CheckingDisabled = false
      ∧ a.msg.hdr.Rcode = 0
      ∧ a.msg.Compress = true
      ∧ a.msg.hdr.Id = (if a.unicast then queryM.hdr.Id else 0) :=
  handleQuery_single_question_response zoneAny (fun _ => false) queryM qM
    rfl rfl rfl rfl (by decide)

/-- C4: an empty-answer response is never transmitted: the resp
closure returns none for an empty answer sequence, every sendResponse
call of handleQuery carries a non-empty answer list, every write of
announceOnce carries a non-empty answer list, and announceOnce with an
empty announcement set performs no write and reports no error. -/
theorem no_empty_answer_response_transmitted (zone : Zone RR)
    (sf wf : Bool → Bool) (socks : Sockets) (query : Msg RR) :
    (∀ (qid : Nat) (m u : List RR) (uc : Bool),
        (if uc then u else m) = [] → buildResponse qid m u uc = none)
    ∧ (∀ a ∈ (handleQuery zone sf query).1, a.msg.Answer ≠ [])
    ∧ (∀ w ∈ (announceOnce zone socks wf).1, w.msg.Answer ≠ [])
    ∧ (zone.Announcement = [] → announceOnce zone socks wf = ([], false)) := by
  refine ⟨?_, ?_, ?_, ?_⟩
  · intro qid m u uc h
    simp [buildResponse, h]
  · intro a ha
    unfold handleQuery at ha
    by_cases h1 : query.hdr.Opcode ≠ OpcodeQuery
    · rw [if_pos h1] at ha
      simp at ha
    rw [if_neg h1] at ha
    by_cases h2 : query.hdr.Rcode ≠ 0
    · rw [if_pos h2] at ha
      simp at ha
    rw [if_neg h2] at ha
    by_cases h3 : query.hdr.Truncated = true
    · rw [if_pos h3] at ha
      simp at ha
    rw [if_neg h3] at ha
    simp only [] at ha
    cases hmc : buildResponse query.hdr.Id
        (collectAnswers zone query.Question).1
        (collectAnswers zone query.Question).2 false with
    | some mresp =>
      rw [hmc] at ha
      by_cases hsf : sf false = true
      · simp [hsf] at ha
        rw [ha]
        exact buildResponse_some_answer_ne_nil hmc
      · simp [hsf] at ha
        cases huc : buildResponse query.hdr.Id
            (collectAnswers zone query.Question).1
            (collectAnswers zone query.Question).2 true with
        | some uresp =>
          rw [huc] at ha
          simp at ha
          rcases ha with ha | ha
          · rw [ha]
            exact buildResponse_some_answer_ne_nil hmc
          · rw [ha]
            exact buildResponse_some_answer_ne_nil huc
        | none =>
          rw [huc] at ha
          simp at ha
          rw [ha]
          exact buildResponse_some_answer_ne_nil hmc
    | none =>
      rw [hmc] at ha
      simp only [List.mem_singleton] at ha
      cases huc : buildResponse query.hdr.Id
          (collectAnswers zone query.Question).1
          (collectAnswers zone query.Question).2 true with
      | some uresp =>
        rw [huc] at ha
        simp at ha
        rw [ha]
        exact buildResponse_some_answer_ne_nil huc
      | none =>
        rw [huc] at ha
        simp at ha
  · intro w hw
    unfold announceOnce at hw
    by_cases hlen : zone.Announcement.length = 0
    · rw [if_pos hlen] at hw
      simp at hw
    rw [if_neg hlen] at hw
    have hne : zone.Announcement ≠ [] :=
      fun h => hlen (by simp [h])
    simp only [] at hw
    by_cases h4 : socks.v4 = true
    · rw [if_pos h4] at hw
      by_cases hwf : wf false = true
      · rw [if_pos hwf] at hw
        simp at hw
        rw [hw]
        simpa [mkResponse] using hne
      · rw [if_neg hwf] at hw
        by_cases h6 : socks.v6 = true
        · rw [if_pos h6] at hw
          simp at hw
          rcases hw with hw | hw <;>
            · rw [hw]
              simpa [mkResponse] using hne
        · rw [if_neg h6] at hw
          simp at hw
          rw [hw]
          simpa [mkResponse] using hne
    · rw [if_neg h4] at hw
      by_cases h6 : socks.v6 = true
      · rw [if_pos h6] at hw
        simp at hw
        rw [hw]
        simpa [mkResponse] using hne
      · rw [if_neg h6] at hw
        simp at hw
  · intro h
    simp [announceOnce, h]

/-- Witness for C4: the multicast answer of the single-question query
against the match-all zone is non-empty, and announceOnce of a zone
with nothing to announce does nothing. -/
theorem no_empty_answer_response_transmitted_witness :
    (SendAttempt.mk (mkResponse 0 [42]) false).msg.Answer ≠ []
    ∧ announceOnce zoneCS ⟨true, true⟩ (fun _ => false) = ([], false) :=
  ⟨(no_empty_answer_response_transmitted zoneAny (fun _ => false)
      (fun _ => false) ⟨true, true⟩ queryM).2.1
      ⟨mkResponse 0 [42], false⟩ (by decide),
   (no_empty_answer_response_transmitted zoneCS (fun _ => false)
      (fun _ => false) ⟨true, true⟩ queryM).2.2.2 (by decide)⟩

/-- C10: a valid query whose questions all match no Zone records (or
which has no questions at all) is silently ignored: handleQuery
returns nil and attempts no send. -/
theorem handleQuery_unknown_names_silently_ignored (zone : Zone RR)
    (sf : Bool → Bool) (query : Msg RR)
    (hop : query.hdr.Opcode = 0) (hrc : query.hdr.Rcode = 0)
    (htr : query.hdr.Truncated = false)
    (hmatch : ∀ q ∈ query.Question, zone.Records q = []) :
    handleQuery zone sf query = ([], false) := by
  unfold handleQuery
  simp [hop, hrc, htr, OpcodeQuery, collectAnswers_nil_of_no_match hmatch,
    buildResponse]

/-- Witness for C10: the class-sensitive zone has no record for the
unicast-bit question, so the query carrying it gets no reply and no
error. -/
theorem handleQuery_unknown_names_silently_ignored_witness :
    handleQuery zoneCS (fun _ => false) queryU = ([], false) :=
  handleQuery_unknown_names_silently_ignored zoneCS (fun _ => false) queryU
    rfl rfl rfl (by decide)

/-- C6, counterexample: on a query whose multicast and unicast answer
sequences are both non-empty, a failing multicast send makes
handleQuery return at once: the unicast response is never attempted,
so one send failure does suppress the other send. -/
theorem handleQuery_multicast_failure_suppresses_unicast :
    (collectAnswers zoneAny queryBoth.Question).1 ≠ []
    ∧ (collectAnswers zoneAny queryBoth.Question).2 ≠ []
    ∧ (handleQuery zoneAny (fun u => !u) queryBoth).2 = true
    ∧ (handleQuery zoneAny (fun u => !u) queryBoth).1 =
        [⟨mkResponse 0 [42], false⟩] := by
  decide

/-- C6, amended: the multicast response is sent first; the unicast
response is attempted exactly when the multicast send succeeds.  A
multicast send failure is reported and suppresses the unicast attempt;
when the multicast send succeeds, a unicast send failure is reported
by itself. -/
theorem handleQuery_sendfailure_ordering (zone : Zone RR)
    (sf : Bool → Bool) (query : Msg RR)
    (hop : query.hdr.Opcode = 0) (hrc : query.hdr.Rcode = 0)
    (htr : query.hdr.Truncated = false)
    (hm : (collectAnswers zone query.Question).1 ≠ [])
    (hu : (collectAnswers zone query.Question).2 ≠ []) :
    (sf false = false →
      handleQuery zone sf query =
        ([⟨mkResponse 0 (collectAnswers zone query.Question).1, false⟩,
          ⟨mkResponse query.hdr.Id (collectAnswers zone query.Question).2, true⟩],
         sf true))
    ∧ (sf false = true →
      handleQuery zone sf query =
        ([⟨mkResponse 0 (collectAnswers zone query.Question).1, false⟩], true)) := by
  have hmlen : ¬ ((collectAnswers zone query.Question).1.length = 0) :=
    fun h => hm (List.length_eq_zero.mp h)
  have hulen : ¬ ((collectAnswers zone query.Question).2.length = 0) :=
    fun h => hu (List.length_eq_zero.mp h)
  unfold handleQuery
  rw [if_neg (by simp [hop, OpcodeQuery]), if_neg (by simp [hrc]),
    if_neg (by simp [htr])]
  refine ⟨fun hsf => ?_, fun hsf => ?_⟩ <;>
    simp [buildResponse, hmlen, hulen, hsf]

/-- Witness for the amended C6: with the failing multicast send, only
the multicast response is attempted and the error is reported. -/
theorem handleQuery_sendfailure_ordering_witness :
    handleQuery zoneAny (fun u => !u) queryBoth =
      ([⟨mkResponse 0 (collectAnswers zoneAny queryBoth.Question).1, false⟩],
       true) :=
  (handleQuery_sendfailure_ordering zoneAny (fun u => !u) queryBoth
    rfl rfl rfl (by decide) (by decide)).2 rfl

/-- C7: with every write succeeding and at least one socket present,
Announce on a zone with a non-empty announcement set produces exactly
two identical unsolicited multicast transmissions, the first at offset
0 and the second at offset 2 seconds, both authoritative with id 0;
with an empty announcement set both scheduled executions write
nothing, so zero packets are sent. -/
theorem Announce_two_timed_multicast_responses (zone : Zone RR)
    (socks : Sockets) (wf : Nat → Bool → Bool)
    (hwf : ∀ i u, wf i u = false)
    (hsock : socks.v4 = true ∨ socks.v6 = true) :
    (zone.Announcement ≠ [] →
      ∃ (t1 t2 : Nat) (w : List (AnnWrite RR)),
        Announce zone socks wf = [(t1, w), (t2, w)]
        ∧ t1 + 2 ≤ t2
        ∧ w ≠ []
        ∧ ∀ x ∈ w, x.msg.hdr.Id = 0 ∧ x.msg.hdr.Response = true
            ∧ x.msg.hdr.Authoritative = true
            ∧ x.msg.Answer = zone.Announcement)
    ∧ (zone.Announcement = [] →
      Announce zone socks wf = [(0, []), (2, [])]) := by
  constructor
  · intro hne
    have hlen : ¬ (zone.Announcement.length = 0) :=
      fun h => hne (List.length_eq_zero.mp h)
    rcases socks with ⟨v4, v6⟩
    cases v4 <;> cases v6
    · rcases hsock with h | h <;> simp at h
    · refine ⟨0, 2, [⟨true, mkResponse 0 zone.Announcement⟩], ?_, ?_, ?_, ?_⟩
      · simp [Announce, announceOnce, hlen, hwf]
      · omega
      · simp
      · intro x hx
        simp at hx
        rw [hx]
        simp [mkResponse]
    · refine ⟨0, 2, [⟨false, mkResponse 0 zone.Announcement⟩], ?_, ?_, ?_, ?_⟩
      · simp [Announce, announceOnce, hlen, hwf]
      · omega
      · simp
      · intro x hx
        simp at hx
        rw [hx]
        simp [mkResponse]
    · refine ⟨0, 2, [⟨false, mkResponse 0 zone.Announcement⟩,
        ⟨true, mkResponse 0 zone.Announcement⟩], ?_, ?_, ?_, ?_⟩
      · simp [Announce, announceOnce, hlen, hwf]
      · omega
      · simp
      · intro x hx
        simp at hx
        rcases hx with hx | hx <;>
          · rw [hx]
            simp [mkResponse]
  · intro h
    simp [Announce, announceOnce, h]

/-- Witness for C7: the match-all zone announces [7] twice over both
sockets, at offsets 0 and 2 seconds. -/
theorem Announce_two_timed_multicast_responses_witness :
    ∃ (t1 t2 : Nat) (w : List (AnnWrite Nat)),
      Announce zoneAny ⟨true, true⟩ (fun _ _ => false) = [(t1, w), (t2, w)]
      ∧ t1 + 2 ≤ t2
      ∧ w ≠ []
      ∧ ∀ x ∈ w, x.msg.hdr.Id = 0 ∧ x.msg.hdr.Response = true
          ∧ x.msg.hdr.Authoritative = true
          ∧ x.msg.Answer = zoneAny.Announcement :=
  (Announce_two_timed_multicast_responses zoneAny ⟨true, true⟩
    (fun _ _ => false) (fun _ _ => rfl) (Or.inl rfl)).1 (by decide)

/-- C8, counterexample: with both sockets present, a failing v4 write
makes announceOnce return before the v6 write: only one write happens
and none reaches the v6 socket, so the announcement is not written to
both sockets on every execution. -/
theorem announceOnce_v4_write_failure_skips_v6 :
    (announceOnce zoneAny ⟨true, true⟩ (fun u => !u)).1.length = 1
    ∧ ∀ w ∈ (announceOnce zoneAny ⟨true, true⟩ (fun u => !u)).1,
        w.v6 = false := by
  decide

/-- C8, amended: when both sockets are present and the v4 write
succeeds, announceOnce writes the announcement to both sockets, v4
first; a v4 write failure skips the v6 write. -/
theorem announceOnce_writes_both_sockets (zone : Zone RR)
    (wf : Bool → Bool) (hne : zone.Announcement ≠ [])
    (h4 : wf false = false) :
    (announceOnce zone ⟨true, true⟩ wf).1 =
      [⟨false, mkResponse 0 zone.Announcement⟩,
       ⟨true, mkResponse 0 zone.Announcement⟩] := by
  have hlen : ¬ (zone.Announcement.length = 0) :=
    fun h => hne (List.length_eq_zero.mp h)
  simp [announceOnce, hlen, h4]

/-- Witness for the amended C8: the match-all zone with succeeding
writes reaches both sockets. -/
theorem announceOnce_writes_both_sockets_witness :
    (announceOnce zoneAny ⟨true, true⟩ (fun _ => false)).1 =
      [⟨false, mkResponse 0 zoneAny.Announcement⟩,
       ⟨true, mkResponse 0 zoneAny.Announcement⟩] :=
  announceOnce_writes_both_sockets zoneAny (fun _ => false) (by decide) rfl

/-- A state whose shutdown flag is already set makes every further
Shutdown call a no-op that succeeds. -/
lemma shutdownN_of_shutdown {s : ServerState} (h : s.shutdown = true)
    (n : Nat) : shutdownN n s = (s, [], List.replicate n true) := by
  induction n with
  | zero => simp [shutdownN]
  | succ n ih => simp [shutdownN, Shutdown, h, ih, List.replicate_succ]

/-- The first effective Shutdown call does all the work; the rest are
successful no-ops. -/
lemma shutdownN_succ_of_not_shutdown {s : ServerState}
    (h : s.shutdown = false) (m : Nat) :
    shutdownN (m + 1) s =
      ((Shutdown s).1, (Shutdown s).2.1, true :: List.replicate m true) := by
  have h2 := shutdownN_of_shutdown
    (s := { s with shutdown := true }) rfl m
  simp [shutdownN, h2, Shutdown, h]

/-- A single Shutdown call issues each close at most once. -/
lemma count_shutdown_events_le_one (e : CloseEvent) (s : ServerState) :
    (Shutdown s).2.1.count e ≤ 1 := by
  rcases s with ⟨v4, v6, sd⟩
  cases sd <;> cases v4 <;> cases v6 <;> cases e <;> decide

/-- C9: any positive number of sequential Shutdown calls from any
state all return success, close the shutdown channel and each present
socket at most once in total, and leave the shutdown flag set. -/
theorem Shutdown_idempotent_no_double_close (s : ServerState) (n : Nat)
    (hn : 1 ≤ n) :
    (∀ b ∈ (shutdownN n s).2.2, b = true)
    ∧ (shutdownN n s).2.1.count CloseEvent.ch ≤ 1
    ∧ (shutdownN n s).2.1.count CloseEvent.v4 ≤ 1
    ∧ (shutdownN n s).2.1.count CloseEvent.v6 ≤ 1
    ∧ (shutdownN n s).1.shutdown = true := by
  obtain ⟨m, rfl⟩ : ∃ m, n = m + 1 := ⟨n - 1, by omega⟩
  by_cases hs : s.shutdown = true
  · rw [shutdownN_of_shutdown hs]
    exact ⟨fun b hb => List.eq_of_mem_replicate hb, by simp, by simp,
      by simp, hs⟩
  · have hs' : s.shutdown = false := by simpa using hs
    rw [shutdownN_succ_of_not_shutdown hs']
    refine ⟨?_, ?_, ?_, ?_, ?_⟩
    · intro b hb
      rcases List.mem_cons.mp hb with h | h
      · exact h
      · exact List.eq_of_mem_replicate h
    · exact count_shutdown_events_le_one CloseEvent.ch s
    · exact count_shutdown_events_le_one CloseEvent.v4 s
    · exact count_shutdown_events_le_one CloseEvent.v6 s
    · simp [Shutdown, hs']

/-- Witness for C9: two sequential Shutdown calls on a running server
with both sockets succeed, close everything once, and leave the
shut-down state. -/
theorem Shutdown_idempotent_no_double_close_witness :
    (∀ b ∈ (shutdownN 2 ⟨true, true, false⟩).2.2, b = true)
    ∧ (shutdownN 2 ⟨true, true, false⟩).2.1.count CloseEvent.ch ≤ 1
    ∧ (shutdownN 2 ⟨true, true, false⟩).2.1.count CloseEvent.v4 ≤ 1
    ∧ (shutdownN 2 ⟨true, true, false⟩).2.1.count CloseEvent.v6 ≤ 1
    ∧ (shutdownN 2 ⟨true, true, false⟩).1.shutdown = true :=
  Shutdown_idempotent_no_double_close ⟨true, true, false⟩ 2 (by decide)

end Mdns
